import Mathlib

/-!
Shallow embedding of the moodboard editor core: the grid snapping and
gesture geometry of `src/MoodboardCanvas.tsx`, the scene mutations and the
JSON project codec of `src/App.tsx`, over the element model of
`src/types.ts`.

JavaScript numbers are modelled as rationals; every value the development
touches is exactly representable, so no floating-point rounding intervenes.
`Math.round` rounds half toward positive infinity, i.e. `⌊q + 1/2⌋`.
-/

namespace Moodboard

/-- JavaScript `Math.round`: rounds half toward positive infinity. -/
def jsRound (q : ℚ) : ℤ := ⌊q + 1 / 2⌋

/-- `const GRID_SIZE = 24` (MoodboardCanvas.tsx line 32). -/
def GRID_SIZE : ℚ := 24

/-- `const snap = (value) => Math.round(value / GRID_SIZE) * GRID_SIZE`
(MoodboardCanvas.tsx line 33). -/
def snap (value : ℚ) : ℚ := (jsRound (value / GRID_SIZE) : ℚ) * GRID_SIZE

/-- Start-of-gesture geometry captured in `DragState`
(`origX`, `origY`, `origW`, `origH`). -/
structure Geometry where
  x : ℚ
  y : ℚ
  width : ℚ
  height : ℚ
deriving DecidableEq, Repr

/-- `type ResizeCorner = "nw" | "ne" | "sw" | "se"`. -/
inductive ResizeCorner
  | nw
  | ne
  | sw
  | se
deriving DecidableEq, Repr

/-- Move branch of `handleMouseMove` (MoodboardCanvas.tsx lines 116–119):
the cumulative pointer delta is added to the gesture-origin position and
both coordinates are snapped. Width and height are not written. -/
def moveBy (g : Geometry) (dx dy : ℚ) : Geometry :=
  { g with x := snap (g.x + dx), y := snap (g.y + dy) }

/-- The `switch (drag.corner)` block of the resize branch
(MoodboardCanvas.tsx lines 127–148): candidate geometry before the minimum
clamp and before snapping. -/
def resizeCandidate (g : Geometry) (c : ResizeCorner) (dx dy : ℚ) : Geometry :=
  match c with
  | .se => { g with width := g.width + dx, height := g.height + dy }
  | .sw => { g with width := g.width - dx, height := g.height + dy, x := g.x + dx }
  | .ne => { g with width := g.width + dx, height := g.height - dy, y := g.y + dy }
  | .nw =>
    { width := g.width - dx, height := g.height - dy, x := g.x + dx, y := g.y + dy }

/-- Resize branch of `handleMouseMove` (MoodboardCanvas.tsx lines 120–158):
after the corner switch, `w = Math.max(60, w)`, `h = Math.max(60, h)`, and
the patch writes `snap` of every component. -/
def resizeFromCorner (g : Geometry) (c : ResizeCorner) (dx dy : ℚ) : Geometry :=
  let cand := resizeCandidate g c dx dy
  { x := snap cand.x
    y := snap cand.y
    width := snap (max 60 cand.width)
    height := snap (max 60 cand.height) }

/-- The corner drags the left edge (its name contains W), so `x` moves. -/
def isLeftSide (c : ResizeCorner) : Bool :=
  match c with
  | .nw => true
  | .sw => true
  | .ne => false
  | .se => false

/-- The corner drags the top edge (its name contains N), so `y` moves. -/
def isTopSide (c : ResizeCorner) : Bool :=
  match c with
  | .nw => true
  | .ne => true
  | .sw => false
  | .se => false

/-- A value lying on the snapping grid: an integer multiple of 24. -/
def gridMultiple (v : ℚ) : Prop := ∃ k : ℤ, v = GRID_SIZE * k

/-- Kind-specific attributes of the three element variants (`src/types.ts`):
`ImageElement` carries `src`; `TextElement` carries `text`, `color`,
`fontSize`, `fontFamily`; `SwatchElement` carries `color`. -/
inductive KindData
  | image (src : String)
  | text (body : String) (color : String) (fontSize : ℚ) (fontFamily : String)
  | swatch (color : String)
deriving DecidableEq, Repr

/-- The discriminant string stored in the `type` field. -/
def KindData.typeName : KindData → String
  | .image _ => "image"
  | .text _ _ _ _ => "text"
  | .swatch _ => "swatch"

/-- `MoodboardElement` (`src/types.ts`): the common `BaseElement` attributes
plus the variant payload. -/
structure MoodboardElement where
  id : String
  x : ℚ
  y : ℚ
  width : ℚ
  height : ℚ
  rotation : ℚ
  zIndex : ℤ
  data : KindData
deriving DecidableEq, Repr

/-- A `Partial<MoodboardElement>`: each field either absent or overriding. -/
structure ElementPatch where
  id? : Option String
  x? : Option ℚ
  y? : Option ℚ
  width? : Option ℚ
  height? : Option ℚ
  rotation? : Option ℚ
  zIndex? : Option ℤ
  src? : Option String
  text? : Option String
  color? : Option String
  fontSize? : Option ℚ
  fontFamily? : Option String
deriving DecidableEq, Repr

/-- The empty patch (`{}`). -/
def ElementPatch.empty : ElementPatch :=
  { id? := none, x? := none, y? := none, width? := none, height? := none
    rotation? := none, zIndex? := none, src? := none, text? := none
    color? := none, fontSize? := none, fontFamily? := none }

/-- Spread of the kind-specific patch fields onto the variant payload. -/
def applyKindPatch (p : ElementPatch) : KindData → KindData
  | .image src => .image (p.src?.getD src)
  | .text body color fontSize fontFamily =>
    .text (p.text?.getD body) (p.color?.getD color) (p.fontSize?.getD fontSize)
      (p.fontFamily?.getD fontFamily)
  | .swatch color => .swatch (p.color?.getD color)

/-- The object spread `{ ...el, ...partial }` of `updateElement`
(App.tsx lines 100–106): every field present in the patch overwrites the
corresponding attribute, all others are retained, with no clamping. -/
def applyPatch (p : ElementPatch) (el : MoodboardElement) : MoodboardElement :=
  { id := p.id?.getD el.id
    x := p.x?.getD el.x
    y := p.y?.getD el.y
    width := p.width?.getD el.width
    height := p.height?.getD el.height
    rotation := p.rotation?.getD el.rotation
    zIndex := p.zIndex?.getD el.zIndex
    data := applyKindPatch p el.data }

/-- `updateElement` (App.tsx lines 100–106):
`prev.map((el) => el.id === id ? { ...el, ...partial } : el)`. -/
def updateElement (id : String) (p : ElementPatch)
    (prev : List MoodboardElement) : List MoodboardElement :=
  prev.map fun el => if el.id = id then applyPatch p el else el

/-- `export type CanvasTheme = "grid" | "dots" | "paper" | "plain"`. -/
inductive CanvasTheme
  | grid
  | dots
  | paper
  | plain
deriving DecidableEq, Repr

/-- The union-member string of a `CanvasTheme` value. -/
def CanvasTheme.toName : CanvasTheme → String
  | .grid => "grid"
  | .dots => "dots"
  | .paper => "paper"
  | .plain => "plain"

/-- The three `useState` cells of `App` that the claims concern:
`elements`, `selectedId`, `canvasTheme`. -/
structure AppState where
  elements : List MoodboardElement
  selectedId : Option String
  canvasTheme : CanvasTheme
deriving DecidableEq, Repr

/-- `deleteSelected` (App.tsx lines 128–132): when an element is selected,
filter it out of the list and clear the selection; otherwise do nothing. -/
def deleteSelected (st : AppState) : AppState :=
  match st.selectedId with
  | none => st
  | some sel =>
    { st with
      elements := st.elements.filter (fun el => el.id ≠ sel)
      selectedId := none }

/-- The paint-order comparison `(a, b) => a.zIndex - b.zIndex`: ascending
`zIndex`. -/
def zLE (a b : MoodboardElement) : Prop := a.zIndex ≤ b.zIndex

instance : DecidableRel zLE :=
  fun a b => inferInstanceAs (Decidable (a.zIndex ≤ b.zIndex))

instance : IsTotal MoodboardElement zLE :=
  ⟨fun a b => le_total a.zIndex b.zIndex⟩

instance : IsTrans MoodboardElement zLE :=
  ⟨fun _ _ _ hab hbc => le_trans hab hbc⟩

/-- `elements.slice().sort((a, b) => a.zIndex - b.zIndex)`
(MoodboardCanvas.tsx lines 269–271). ECMAScript `Array.prototype.sort` is
specified to be stable and to order by the comparator, which uniquely
determines its output; insertion sort before the first element that is not
strictly smaller computes exactly that output. -/
def paintOrder (es : List MoodboardElement) : List MoodboardElement :=
  es.insertionSort zLE

/-- A parsed JSON value, the result of a successful `JSON.parse`.
`JSON.stringify` followed by `JSON.parse` transports this tree exactly
(finite numbers round-trip through the shortest-representation printer), so
the codec is modelled at the tree level. -/
inductive Json
  | null
  | bool (b : Bool)
  | num (q : ℚ)
  | str (s : String)
  | arr (elems : List Json)
  | obj (fields : List (String × Json))

/-- JavaScript member access `v.name` on a parsed JSON value: throws a
`TypeError` on `null` (modelled as `Except.error`), yields the property on
an object (`none` when absent, i.e. `undefined`; with duplicate keys the
last wins, as in `JSON.parse`), and `undefined` on every other value. -/
def jsGetField : Json → String → Except Unit (Option Json)
  | .null, _ => .error ()
  | .obj fields, name =>
    .ok (fields.foldl (fun acc kv => if kv.1 = name then some kv.2 else acc) none)
  | _, _ => .ok none

/-- JavaScript truthiness of a parsed JSON value (`NaN` is not
representable here; `undefined` is modelled as absence, not a value). -/
def Json.truthy : Json → Bool
  | .null => false
  | .bool b => b
  | .num q => decide (¬ q = 0)
  | .str s => decide (¬ s = "")
  | .arr _ => true
  | .obj _ => true

/-- The structural reading of a JSON value as a `CanvasTheme`: the cast
`data.canvasTheme as CanvasTheme` observed through the four union members.
Any other value escapes the typed model. -/
def decodeTheme : Json → Option CanvasTheme
  | .str "grid" => some .grid
  | .str "dots" => some .dots
  | .str "paper" => some .paper
  | .str "plain" => some .plain
  | _ => none

/-- Property lookup used while reading an element object (the receiver is
never `null` on these paths). -/
def objGet (j : Json) (name : String) : Option Json :=
  match jsGetField j name with
  | .ok v => v
  | .error _ => none

/-- Reads a JSON string. -/
def asString : Option Json → Option String
  | some (.str s) => some s
  | _ => none

/-- Reads a JSON number. -/
def asNum : Option Json → Option ℚ
  | some (.num q) => some q
  | _ => none

/-- Reads a JSON number that is an integer (`zIndex` is integral in every
state the app produces). -/
def asInt (j : Option Json) : Option ℤ :=
  (asNum j).bind fun q => if q.den = 1 then some q.num else none

/-- The structural reading of a parsed JSON object as a `MoodboardElement`:
the `as MoodboardElement` cast observed through the record's accessors.
A document whose element is not of this shape escapes the typed model. -/
def decodeElement (j : Json) : Option MoodboardElement := do
  let i ← asString (objGet j "id")
  let ty ← asString (objGet j "type")
  let x ← asNum (objGet j "x")
  let y ← asNum (objGet j "y")
  let w ← asNum (objGet j "width")
  let h ← asNum (objGet j "height")
  let rot ← asNum (objGet j "rotation")
  let z ← asInt (objGet j "zIndex")
  let kd ←
    match ty with
    | "image" => (asString (objGet j "src")).map KindData.image
    | "text" => do
      let body ← asString (objGet j "text")
      let color ← asString (objGet j "color")
      let fontSize ← asNum (objGet j "fontSize")
      let fontFamily ← asString (objGet j "fontFamily")
      pure (KindData.text body color fontSize fontFamily)
    | "swatch" => (asString (objGet j "color")).map KindData.swatch
    | _ => none
  pure { id := i, x := x, y := y, width := w, height := h, rotation := rot
         zIndex := z, data := kd }

/-- The structural reading of the document's `elements` field as an element
list. -/
def decodeElementList : Json → Option (List MoodboardElement)
  | .arr xs => xs.mapM decodeElement
  | _ => none

/-- `JSON.stringify` of one element record: every attribute of the variant,
tagged by the `type` discriminant. -/
def encodeElement (el : MoodboardElement) : Json :=
  .obj
    ([("id", .str el.id), ("type", .str el.data.typeName),
      ("x", .num el.x), ("y", .num el.y),
      ("width", .num el.width), ("height", .num el.height),
      ("rotation", .num el.rotation), ("zIndex", .num (el.zIndex : ℚ))] ++
      (match el.data with
       | .image src => [("src", .str src)]
       | .text body color fontSize fontFamily =>
         [("text", .str body), ("color", .str color),
          ("fontSize", .num fontSize), ("fontFamily", .str fontFamily)]
       | .swatch color => [("color", .str color)]))

/-- `handleExportJson` (App.tsx lines 161–175):
`JSON.stringify({ elements, canvasTheme })`. -/
def serializeProject (es : List MoodboardElement) (ct : CanvasTheme) : Json :=
  .obj [("elements", .arr (es.map encodeElement)),
        ("canvasTheme", .str ct.toName)]

/-- Outcome of `JSON.parse(reader.result)`: a parsed value, or a thrown
`SyntaxError` for input that is not valid JSON. -/
inductive ParseResult
  | ok (j : Json)
  | failed

/-- `handleImportJson` (App.tsx lines 177–199). Inside the `try` block:
`data.elements` is read (a `TypeError` on a `null` document is caught with
no setter having run), `setElements(data.elements ?? [])` installs the raw
field — defaulting to `[]` when the field is absent or `null` — with no
structural validation, then `setCanvasTheme(data.canvasTheme)` runs only if
that field is truthy, and `setSelectedId(null)` clears the selection.
A `JSON.parse` failure lands in the `catch` and leaves all state unchanged.
The result is `none` exactly when the untyped cast installs a value outside
the element/theme model (the app would render garbage); no claim is settled
on that escape. -/
def handleImportJson (st : AppState) (input : ParseResult) : Option AppState :=
  match input with
  | .failed => some st
  | .ok j =>
    match jsGetField j "elements" with
    | .error _ => some st
    | .ok rawElems =>
      let decoded : Option (List MoodboardElement) :=
        match rawElems with
        | none => some []
        | some .null => some []
        | some v => decodeElementList v
      match decoded with
      | none => none
      | some es =>
        let rawTheme :=
          match jsGetField j "canvasTheme" with
          | .ok v => v
          | .error _ => none
        match rawTheme with
        | none => some { elements := es, selectedId := none, canvasTheme := st.canvasTheme }
        | some tj =>
          if tj.truthy then
            match decodeTheme tj with
            | some ct => some { elements := es, selectedId := none, canvasTheme := ct }
            | none => none
          else
            some { elements := es, selectedId := none, canvasTheme := st.canvasTheme }

/-- Example elements with `zIndex` 5, 1, 5, 3, inserted in that order. -/
def exA : MoodboardElement :=
  { id := "a", x := 0, y := 0, width := 80, height := 80, rotation := 0
    zIndex := 5, data := .swatch "#111111" }

/-- The second example element, `zIndex` 1. -/
def exB : MoodboardElement :=
  { id := "b", x := 0, y := 0, width := 80, height := 80, rotation := 0
    zIndex := 1, data := .swatch "#222222" }

/-- The third example element, `zIndex` 5. -/
def exC : MoodboardElement :=
  { id := "c", x := 0, y := 0, width := 80, height := 80, rotation := 0
    zIndex := 5, data := .swatch "#333333" }

/-- The fourth example element, `zIndex` 3. -/
def exD : MoodboardElement :=
  { id := "d", x := 0, y := 0, width := 80, height := 80, rotation := 0
    zIndex := 3, data := .swatch "#444444" }

/-- A one-element scene with that element selected, used to witness the
load and delete behaviours at a concrete state. -/
def stW : AppState :=
  { elements := [exA], selectedId := some "a", canvasTheme := .dots }

lemma snap_gridMultiple (v : ℚ) : gridMultiple (snap v) :=
  ⟨jsRound (v / GRID_SIZE), mul_comm _ _⟩

lemma snap_intCast_mul (k : ℤ) :
    snap ((k : ℚ) * GRID_SIZE) = (k : ℚ) * GRID_SIZE := by
  have h24 : (GRID_SIZE : ℚ) ≠ 0 := by norm_num [GRID_SIZE]
  have hq : ((k : ℚ) * GRID_SIZE) / GRID_SIZE = (k : ℚ) := by
    field_simp
  have hfloor : jsRound ((k : ℚ) * GRID_SIZE / GRID_SIZE) = k := by
    rw [hq]
    unfold jsRound
    rw [Int.floor_int_add]
    norm_num
  unfold snap
  rw [hfloor]

lemma snap_idem (v : ℚ) : snap (snap v) = snap v := by
  unfold snap
  have := snap_intCast_mul (jsRound (v / GRID_SIZE))
  simpa [snap] using this

lemma snap_ge_of_ge_60 (v : ℚ) (h : 60 ≤ v) : 72 ≤ snap v := by
  have h3 : (3 : ℤ) ≤ jsRound (v / GRID_SIZE) := by
    unfold jsRound
    rw [Int.le_floor]
    have : (60 : ℚ) / GRID_SIZE ≤ v / GRID_SIZE := by
      apply div_le_div_of_nonneg_right h
      norm_num [GRID_SIZE]
    have h60 : (60 : ℚ) / GRID_SIZE = 5 / 2 := by norm_num [GRID_SIZE]
    push_cast
    linarith [this, h60]
  unfold snap
  have : ((3 : ℤ) : ℚ) * GRID_SIZE ≤ (jsRound (v / GRID_SIZE) : ℚ) * GRID_SIZE := by
    apply mul_le_mul_of_nonneg_right
    · exact_mod_cast h3
    · norm_num [GRID_SIZE]
  calc (72 : ℚ) = ((3 : ℤ) : ℚ) * GRID_SIZE := by norm_num [GRID_SIZE]
    _ ≤ _ := this

lemma snap_11 : snap 11 = 0 := by
  norm_num [snap, jsRound, GRID_SIZE]

lemma snap_12 : snap 12 = 24 := by
  norm_num [snap, jsRound, GRID_SIZE]

lemma snap_13 : snap 13 = 24 := by
  norm_num [snap, jsRound, GRID_SIZE]

lemma snap_22 : snap 22 = 24 := by
  norm_num [snap, jsRound, GRID_SIZE]

lemma updateElement_of_not_mem (id : String) (p : ElementPatch)
    (l : List MoodboardElement) (h : ∀ el ∈ l, el.id ≠ id) :
    updateElement id p l = l := by
  unfold updateElement
  induction l with
  | nil => rfl
  | cons a as ih =>
    have ha : a.id ≠ id := h a (List.mem_cons_self a as)
    simp only [List.map_cons, if_neg ha]
    rw [ih (fun el hel => h el (List.mem_cons_of_mem a hel))]

lemma filter_orderedInsert_of_eq (z : ℤ) (a : MoodboardElement)
    (ha : a.zIndex = z) :
    ∀ l : List MoodboardElement,
      (l.orderedInsert zLE a).filter (fun e => e.zIndex = z) =
        a :: l.filter (fun e => e.zIndex = z) := by
  intro l
  induction l with
  | nil => simp [List.orderedInsert, List.filter, ha]
  | cons b bs ih =>
    by_cases hab : zLE a b
    · simp [List.orderedInsert, if_pos hab, List.filter, ha]
    · have hblt : b.zIndex < a.zIndex := lt_of_not_le hab
      have hbz : ¬ b.zIndex = z := by
        rw [ha] at hblt
        exact ne_of_lt hblt
      simp only [List.orderedInsert, if_neg hab]
      simp [List.filter, hbz, ih]

lemma filter_orderedInsert_of_ne (z : ℤ) (a : MoodboardElement)
    (ha : ¬ a.zIndex = z) :
    ∀ l : List MoodboardElement,
      (l.orderedInsert zLE a).filter (fun e => e.zIndex = z) =
        l.filter (fun e => e.zIndex = z) := by
  intro l
  induction l with
  | nil => simp [List.orderedInsert, List.filter, ha]
  | cons b bs ih =>
    by_cases hab : zLE a b
    · simp [List.orderedInsert, if_pos hab, List.filter, ha]
    · simp only [List.orderedInsert, if_neg hab]
      by_cases hbz : b.zIndex = z
      · simp [List.filter, hbz, ih]
      · simp [List.filter, hbz, ih]

lemma paintOrder_filter_zIndex (z : ℤ) :
    ∀ es : List MoodboardElement,
      (paintOrder es).filter (fun e => e.zIndex = z) =
        es.filter (fun e => e.zIndex = z) := by
  intro es
  induction es with
  | nil => rfl
  | cons a as ih =>
    show ((as.insertionSort zLE).orderedInsert zLE a).filter _ = _
    simp only [paintOrder] at ih
    by_cases ha : a.zIndex = z
    · rw [filter_orderedInsert_of_eq z a ha]
      simp [List.filter, ha, ih]
    · rw [filter_orderedInsert_of_ne z a ha]
      simp [List.filter, ha, ih]

lemma decodeElement_encodeElement (el : MoodboardElement) :
    decodeElement (encodeElement el) = some el := by
  obtain ⟨i, x, y, w, h, rot, z, d⟩ := el
  cases d <;> rfl

lemma decodeElementList_map_encode (es : List MoodboardElement) :
    decodeElementList (.arr (es.map encodeElement)) = some es := by
  unfold decodeElementList
  induction es with
  | nil => rfl
  | cons a as ih =>
    simp only [List.map_cons, List.mapM_cons, decodeElement_encodeElement]
    simp only [List.map] at ih
    rw [ih]
    rfl

/-- C4 counterexample: the claim states `Snap(13) = 0`, but the code's
`snap` (with `Math.round` rounding half up) maps 13 to 24. -/
theorem snap_thirteen_is_24_not_0 : snap 13 = 24 ∧ (24 : ℚ) ≠ 0 :=
  ⟨snap_13, by norm_num⟩

/-- C4 (amended): `snap` is idempotent and maps every input to an integer
multiple of the grid unit 24; at the rounding boundary `snap 12 = 24` and
`snap 13 = 24` (not 0): `Math.round` rounds half up, so inputs in
`[-12, 12)` map to 0 and inputs in `[12, 36)` map to 24. -/
theorem snap_idempotent_grid_boundary :
    (∀ v : ℚ, snap (snap v) = snap v) ∧
    (∀ v : ℚ, gridMultiple (snap v)) ∧
    snap 12 = 24 ∧ snap 13 = 24 :=
  ⟨snap_idem, snap_gridMultiple, snap_12, snap_13⟩

/-- C5: for every corner, origin geometry and deltas — arbitrarily large
negative ones included — the resize branch returns width and height at
least 60, and each written dimension is produced by clamping the candidate
to 60 first and snapping second (the clamp-then-snap order of the code). -/
theorem resize_respects_minimum_clamp_then_snap (g : Geometry)
    (c : ResizeCorner) (dx dy : ℚ) :
    60 ≤ (resizeFromCorner g c dx dy).width ∧
    60 ≤ (resizeFromCorner g c dx dy).height ∧
    (resizeFromCorner g c dx dy).width =
      snap (max 60 (resizeCandidate g c dx dy).width) ∧
    (resizeFromCorner g c dx dy).height =
      snap (max 60 (resizeCandidate g c dx dy).height) := by
  refine ⟨?_, ?_, rfl, rfl⟩
  · have h := snap_ge_of_ge_60 (max 60 (resizeCandidate g c dx dy).width)
      (le_max_left _ _)
    show 60 ≤ snap (max 60 (resizeCandidate g c dx dy).width)
    linarith
  · have h := snap_ge_of_ge_60 (max 60 (resizeCandidate g c dx dy).height)
      (le_max_left _ _)
    show 60 ≤ snap (max 60 (resizeCandidate g c dx dy).height)
    linarith

/-- C6: the resize branch moves position only on the near-side axes — the
written `x` is the snap of the origin `x` shifted by `Δx` exactly for the
left-side corners NW and SW, the written `y` is the snap of the origin `y`
shifted by `Δy` exactly for the top-side corners NW and NE — and the
pre-snap candidate position is the un-clamped shift itself (for right and
bottom-side corners it equals the origin coordinate), independent of the
clamped sizes. -/
theorem resize_position_only_near_axes (g : Geometry) (c : ResizeCorner)
    (dx dy : ℚ) :
    (resizeFromCorner g c dx dy).x =
      snap (g.x + (if isLeftSide c then dx else 0)) ∧
    (resizeFromCorner g c dx dy).y =
      snap (g.y + (if isTopSide c then dy else 0)) ∧
    (resizeCandidate g c dx dy).x = g.x + (if isLeftSide c then dx else 0) ∧
    (resizeCandidate g c dx dy).y = g.y + (if isTopSide c then dy else 0) := by
  cases c <;> simp [resizeFromCorner, resizeCandidate, isLeftSide, isTopSide]

/-- C7 counterexample: composing the move computation on its own output is
not an inverse back to the snapped origin — from `x = 11`, deltas
`(2, 0)` then `(-2, 0)` land on 24, while the snapped origin is 0. -/
theorem moveBy_compose_misses_snapped_origin :
    moveBy (moveBy { x := 11, y := 0, width := 100, height := 100 } 2 0)
        (-2) 0 =
      { x := 24, y := 0, width := 100, height := 100 } ∧
    snap (11 : ℚ) = 0 ∧ (24 : ℚ) ≠ 0 := by
  refine ⟨?_, snap_11, by norm_num⟩
  have h0 : snap (0 : ℚ) = 0 := by norm_num [snap, jsRound, GRID_SIZE]
  have h1 : moveBy { x := 11, y := 0, width := 100, height := 100 } 2 0 =
      { x := 24, y := 0, width := 100, height := 100 } := by
    simp only [moveBy]
    norm_num [snap_13, h0]
  rw [h1]
  simp only [moveBy]
  norm_num [snap_22, h0]

/-- C7 (amended): each move frame recomputes from the gesture's fixed
origin geometry, so after the cumulative pointer delta `(Δx, Δy)` is
followed by its negation the net delta is zero and the written position is
exactly the snapped origin `(snap x, snap y)` — not necessarily the
original unsnapped position. Composing `moveBy` on the previous frame's
output, by contrast, need not return the snapped origin, since snapping is
lossy. -/
theorem moveBy_net_zero_returns_snapped_origin (g : Geometry) (dx dy : ℚ) :
    moveBy g (dx + -dx) (dy + -dy) =
      { x := snap g.x, y := snap g.y, width := g.width, height := g.height } := by
  cases g
  simp [moveBy]

/-- C8: the paint order is the element list stably sorted by ascending
`zIndex`: it is sorted, it is a permutation of the scene, elements of equal
`zIndex` keep their insertion order (the filtered subsequence at any fixed
`zIndex` is unchanged), and on the spec's example — `zIndex` values
`[5, 1, 5, 3]` in insertion order — it paints element 1, element 3,
element 0, element 2. -/
theorem paintOrder_stable_sort :
    (∀ es : List MoodboardElement, (paintOrder es).Sorted zLE) ∧
    (∀ es : List MoodboardElement, (paintOrder es).Perm es) ∧
    (∀ (es : List MoodboardElement) (z : ℤ),
      (paintOrder es).filter (fun e => e.zIndex = z) =
        es.filter (fun e => e.zIndex = z)) ∧
    paintOrder [exA, exB, exC, exD] = [exB, exD, exA, exC] := by
  refine ⟨fun es => List.sorted_insertionSort zLE es,
    fun es => List.perm_insertionSort zLE es,
    fun es z => paintOrder_filter_zIndex z es, ?_⟩
  rfl

/-- C9: deleting the selected element clears the selection (never left
dangling), removes every element with that identifier from the scene while
keeping the rest in order, and any subsequent patch addressed to the
deleted identifier is a silent no-op returning the list unchanged. -/
theorem deleteSelected_clears_then_patch_noop (st : AppState) (sel : String)
    (h : st.selectedId = some sel) :
    (deleteSelected st).selectedId = none ∧
    (deleteSelected st).elements = st.elements.filter (fun el => el.id ≠ sel) ∧
    (∀ e ∈ (deleteSelected st).elements, e.id ≠ sel) ∧
    ∀ p : ElementPatch,
      updateElement sel p (deleteSelected st).elements =
        (deleteSelected st).elements := by
  have hd : deleteSelected st =
      { st with
        elements := st.elements.filter (fun el => el.id ≠ sel)
        selectedId := none } := by
    unfold deleteSelected
    rw [h]
  have hm : ∀ e ∈ (deleteSelected st).elements, e.id ≠ sel := by
    intro e he
    rw [hd] at he
    have := (List.mem_filter.mp he).2
    exact of_decide_eq_true this
  refine ⟨by rw [hd], by rw [hd], hm, ?_⟩
  intro p
  exact updateElement_of_not_mem sel p _ hm

/-- Witness for C9 at a concrete one-element scene with that element
selected. -/
theorem deleteSelected_clears_then_patch_noop_witness :
    (deleteSelected stW).selectedId = none ∧
    (deleteSelected stW).elements = stW.elements.filter (fun el => el.id ≠ "a") ∧
    (∀ e ∈ (deleteSelected stW).elements, e.id ≠ "a") ∧
    ∀ p : ElementPatch,
      updateElement "a" p (deleteSelected stW).elements =
        (deleteSelected stW).elements :=
  deleteSelected_clears_then_patch_noop stW "a" rfl

/-- C10 (implicit): every dimension written by a resize frame is an exact
multiple of the grid unit 24 and at least 72 — strictly above the
documented minimum 60, because `snap (max 60 v)` rounds 60 up to 72 — and
every position written by a move frame is an exact multiple of 24. -/
theorem gesture_writes_are_grid_multiples (g : Geometry) (c : ResizeCorner)
    (dx dy : ℚ) :
    gridMultiple (resizeFromCorner g c dx dy).width ∧
    gridMultiple (resizeFromCorner g c dx dy).height ∧
    72 ≤ (resizeFromCorner g c dx dy).width ∧
    72 ≤ (resizeFromCorner g c dx dy).height ∧
    gridMultiple (moveBy g dx dy).x ∧
    gridMultiple (moveBy g dx dy).y := by
  refine ⟨snap_gridMultiple _, snap_gridMultiple _, ?_, ?_,
    snap_gridMultiple _, snap_gridMultiple _⟩
  · exact snap_ge_of_ge_60 _ (le_max_left _ _)
  · exact snap_ge_of_ge_60 _ (le_max_left _ _)

/-- C1 counterexample: loading the parseable JSON document `5` (a bare
number, so not a structurally valid project) over a non-empty scene with a
live selection does not preserve the scene: the element list is replaced by
the empty list and the selection is cleared, so the pre-load state is lost
and no rejection occurs. -/
theorem importJson_bare_number_wipes_scene :
    handleImportJson stW (.ok (.num 5)) =
      some { elements := [], selectedId := none, canvasTheme := .dots } ∧
    some ({ elements := [], selectedId := none, canvasTheme := .dots } : AppState) ≠
      some stW := by
  refine ⟨rfl, ?_⟩
  intro hcontra
  have h := Option.some.inj hcontra
  have helems : ([] : List MoodboardElement) = stW.elements :=
    congrArg AppState.elements h
  simp [stW] at helems

/-- C1 (amended): only input that `JSON.parse` rejects — plus the document
`null`, whose `data.elements` member access throws inside the same `try` —
leaves the pre-load scene and selection completely unchanged. Any other
parseable document is accepted without structural validation: the element
list is replaced by the document's `elements` field, defaulting to the
empty list when the top level is not an object (so a bare number wipes the
scene), the theme is kept only when the document carries none, and the
selection is cleared. No `MalformedProject` condition exists in the code;
the only surfaced rejection is the parse failure. -/
theorem importJson_accepts_any_parseable_document (st : AppState) (j : Json)
    (hnull : j ≠ .null) (hobj : ∀ fields, j ≠ .obj fields) :
    handleImportJson st .failed = some st ∧
    handleImportJson st (.ok .null) = some st ∧
    handleImportJson st (.ok j) =
      some { elements := [], selectedId := none, canvasTheme := st.canvasTheme } := by
  refine ⟨rfl, rfl, ?_⟩
  cases j with
  | null => exact absurd rfl hnull
  | obj fields => exact absurd rfl (hobj fields)
  | bool b => rfl
  | num q => rfl
  | str s => rfl
  | arr xs => rfl

/-- Witness for C1 (amended) at the bare-number document over a concrete
scene. -/
theorem importJson_accepts_any_parseable_document_witness :
    handleImportJson stW .failed = some stW ∧
    handleImportJson stW (.ok .null) = some stW ∧
    handleImportJson stW (.ok (.num 5)) =
      some { elements := [], selectedId := none, canvasTheme := stW.canvasTheme } :=
  importJson_accepts_any_parseable_document stW (.num 5)
    (fun hcontra => Json.noConfusion hcontra)
    (fun _fields hcontra => Json.noConfusion hcontra)

/-- C2: for every element list and canvas theme, deserializing the
serialized document restores exactly the same element list — every field of
every element, in the same order, identifiers and `zIndex` included, none
regenerated — and the same canvas theme, regardless of the pre-load
state. -/
theorem serialize_deserialize_round_trip (st : AppState)
    (es : List MoodboardElement) (ct : CanvasTheme) :
    handleImportJson st (.ok (serializeProject es ct)) =
      some { elements := es, selectedId := none, canvasTheme := ct } := by
  have h1 : jsGetField (serializeProject es ct) "elements" =
      .ok (some (.arr (es.map encodeElement))) := rfl
  have h2 : jsGetField (serializeProject es ct) "canvasTheme" =
      .ok (some (.str ct.toName)) := rfl
  have h3 : (Json.str ct.toName).truthy = true := by
    cases ct <;> rfl
  have h4 : decodeTheme (.str ct.toName) = some ct := by
    cases ct <;> rfl
  simp only [handleImportJson, h1, h2, decodeElementList_map_encode, h3, h4,
    if_true]

/-- C3 counterexample: a patch carrying `width = 10` applied through
`updateElement` writes 10 — a value below the minimum bound 60 — instead of
clamping it up. -/
theorem updateElement_writes_subminimum_width :
    updateElement "a" { ElementPatch.empty with width? := some 10 } [exA] =
      [{ id := "a", x := 0, y := 0, width := 10, height := 80, rotation := 0
         zIndex := 5, data := .swatch "#111111" }] ∧
    ¬ (60 : ℚ) ≤ 10 := by
  refine ⟨rfl, by norm_num⟩

/-- C3 (amended): `updateElement` applies a partial patch verbatim — every
present field, width and height included, overwrites the element's
attribute without any clamping; the minimum-size bound 60 is enforced only
by the resize-gesture path, not by the patch operation. -/
theorem updateElement_applies_patch_verbatim (el : MoodboardElement)
    (p : ElementPatch) :
    updateElement el.id p [el] = [applyPatch p el] ∧
    (applyPatch p el).width = p.width?.getD el.width ∧
    (applyPatch p el).height = p.height?.getD el.height := by
  refine ⟨?_, rfl, rfl⟩
  simp [updateElement]

end Moodboard
